import Mathlib

/-!
Verification of the gvrtex-cli configuration/validation layer.

The repository is a command-line front end over an external GVR texture
codec.  The original logic lives in `src/main.rs` (the encode/decode
pipelines) and `src/formats.rs` (the format catalog).  Below, each of
those pieces is embedded shallowly: the enums become inductives, the
catalog maps become total functions, and the `main` control flow becomes
an executable function from the parsed arguments plus an oracle for the
external collaborators (codec construction, encoding, file writing) to
an outcome and a trace of the external calls made.
-/

/-- CLI pixel formats, from `src/formats.rs` (`pub enum PixelFormat`). -/
inductive PixelFormat
  | IntensityA8
  | Rgb565
  | Rgb5a3
deriving DecidableEq, Fintype, Repr

/-- CLI data formats, from `src/formats.rs` (`pub enum DataFormat`). -/
inductive DataFormat
  | Intensity4
  | Intensity8
  | IntensityA4
  | IntensityA8
  | Rgb565
  | Rgb5a3
  | Argb8888
  | Index4
  | Index8
  | Dxt1
deriving DecidableEq, Fintype, Repr

/-- Header magic identifiers, from `src/main.rs` (`enum HeaderId`). -/
inductive HeaderId
  | Gcix
  | Gbix
deriving DecidableEq, Fintype, Repr

/-- `Display for HeaderId` in `src/main.rs`. -/
def HeaderId.display : HeaderId → String
  | .Gcix => "GCIX"
  | .Gbix => "GBIX"

/-- `Display for PixelFormat` in `src/formats.rs`. -/
def PixelFormat.display : PixelFormat → String
  | .IntensityA8 => "Intensity 8-bit With Alpha"
  | .Rgb565 => "RGB565"
  | .Rgb5a3 => "RGB5A3"

/-- `Display for DataFormat` in `src/formats.rs`. -/
def DataFormat.display : DataFormat → String
  | .Intensity4 => "Intensity 4-bit"
  | .Intensity8 => "Intensity 8-bit"
  | .IntensityA4 => "Intensity 4-bit With Alpha"
  | .IntensityA8 => "Intensity 8-bit With Alpha"
  | .Rgb565 => "RGB565"
  | .Rgb5a3 => "RGB5A3"
  | .Argb8888 => "ARGB8888"
  | .Index4 => "4-bit Indexed"
  | .Index8 => "8-bit Indexed"
  | .Dxt1 => "DXT1 Compressed"

/-- The clap `ValueEnum` value name of each `DataFormat` variant, as
returned by `to_possible_value().get_name()` in `src/main.rs`.  The
derive in `src/formats.rs` uses no renaming attributes, so clap applies
its documented default: the variant identifier converted to kebab-case. -/
def DataFormat.cliName : DataFormat → String
  | .Intensity4 => "intensity4"
  | .Intensity8 => "intensity8"
  | .IntensityA4 => "intensity-a4"
  | .IntensityA8 => "intensity-a8"
  | .Rgb565 => "rgb565"
  | .Rgb5a3 => "rgb5a3"
  | .Argb8888 => "argb8888"
  | .Index4 => "index4"
  | .Index8 => "index8"
  | .Dxt1 => "dxt1"

/-- The external codec's pixel-format vocabulary
(`gvrtex::formats::PixelFormat`), referenced by `src/formats.rs`. -/
inductive GvrPixelFormat
  | IntensityA8
  | RGB565
  | RGB5A3
deriving DecidableEq, Fintype, Repr

/-- The external codec's data-format vocabulary
(`gvrtex::formats::DataFormat`), referenced by `src/formats.rs`. -/
inductive GvrDataFormat
  | Intensity4
  | Intensity8
  | IntensityA4
  | IntensityA8
  | Rgb565
  | Rgb5a3
  | Argb8888
  | Index4
  | Index8
  | Dxt1
deriving DecidableEq, Fintype, Repr

/-- `impl From<PixelFormat> for gvrtex::formats::PixelFormat` in `src/formats.rs`. -/
def pixelFormatToGvr : PixelFormat → GvrPixelFormat
  | .IntensityA8 => .IntensityA8
  | .Rgb565 => .RGB565
  | .Rgb5a3 => .RGB5A3

/-- `impl From<DataFormat> for gvrtex::formats::DataFormat` in `src/formats.rs`. -/
def dataFormatToGvr : DataFormat → GvrDataFormat
  | .Intensity4 => .Intensity4
  | .Intensity8 => .Intensity8
  | .IntensityA4 => .IntensityA4
  | .IntensityA8 => .IntensityA8
  | .Rgb565 => .Rgb565
  | .Rgb5a3 => .Rgb5a3
  | .Argb8888 => .Argb8888
  | .Index4 => .Index4
  | .Index8 => .Index8
  | .Dxt1 => .Dxt1

/-- The `matches!(data_format, Dxt1 | Rgb565 | Rgb5a3)` test guarding the
mipmap validation in `src/main.rs`. -/
def DataFormat.mipmapCompatible : DataFormat → Bool
  | .Dxt1 | .Rgb565 | .Rgb5a3 => true
  | _ => false

/-- The `Index4 | Index8` split of the encoder match in `src/main.rs`
(the spec calls this decision `is_palettized`). -/
def DataFormat.isPalettized : DataFormat → Bool
  | .Index4 | .Index8 => true
  | _ => false

/-- A `PathBuf` argument as observable through the operations `main` uses
on it: `to_str` (fails on non-UTF-8 paths) and lossy `display`. -/
inductive PathArg
  | utf8 (s : String)
  | nonUtf8 (lossy : String)
deriving DecidableEq, Repr

/-- `Path::to_str`: `some` exactly for valid-UTF-8 paths. -/
def PathArg.toStr : PathArg → Option String
  | .utf8 s => some s
  | .nonUtf8 _ => none

/-- `Path::display`: always renders, lossily for non-UTF-8 paths. -/
def PathArg.displayStr : PathArg → String
  | .utf8 s => s
  | .nonUtf8 l => l

/-- The parsed `Commands::Encode` arguments from `src/main.rs`
(`global_index` is a `u32`; its numeric value is carried as a `Nat`). -/
structure EncodeArgs where
  input : PathArg
  output : PathArg
  data_format : DataFormat
  pixel_format : PixelFormat
  mipmaps : Bool
  header : HeaderId
  global_index : Nat
deriving DecidableEq, Repr

/-- One of the four `TextureEncoder` construction entry points invoked in
`src/main.rs`, together with the arguments passed to it. -/
inductive ConstructorCall
  | gcixPalettized (pf : GvrPixelFormat) (df : GvrDataFormat)
  | gbixPalettized (pf : GvrPixelFormat) (df : GvrDataFormat)
  | gcix (df : GvrDataFormat)
  | gbix (df : GvrDataFormat)
deriving DecidableEq, Repr

/-- Configuration state of the external `gvrtex::TextureEncoder` as far
as this CLI can influence it: which constructor built it, whether the
mipmap modifier was applied, and the header's global-index field.
Modelled from the spec for the external codec: construction leaves the
global index at the format-implicit default of 0, and
`with_global_index(n)` stores the literal `n` into the header field. -/
structure TextureEncoder where
  ctor : ConstructorCall
  mipmapsApplied : Bool
  globalIndex : Nat
deriving DecidableEq, Repr

/-- The format-implicit default of the header's global-index field. -/
def TextureEncoder.defaultGlobalIndex : Nat := 0

/-- Results of the external collaborators' fallible calls during one
encode run: `none` means the call succeeds, `some e` that it fails with
message `e`. -/
structure EncodeWorld where
  ctorFails : Option String
  mipmapModifierFails : Option String
  encodeFails : Option String
  writeFails : Option String
deriving DecidableEq, Repr

/-- External calls made by the encode pipeline, in order. -/
inductive Event
  | construct (c : ConstructorCall)
  | withMipmaps
  | withGlobalIndex (n : Nat)
  | encodeCall (enc : TextureEncoder) (inputPath : String)
  | writeFile (outputPath : String)
deriving DecidableEq, Repr

/-- How one invocation of `main` terminates: normal success (`ExitCode::SUCCESS`),
a clap usage error via `cmd.error(..).exit()`, a reported runtime failure
(`return ExitCode::FAILURE` after a prefixed message), or a panic from
`unwrap`/`expect`. -/
inductive Outcome
  | ok (report : List String)
  | cliError (message : String)
  | reportedError (category : String) (message : String)
  | panicked (message : String)
deriving DecidableEq, Repr

/-- The process exit status of each outcome: 0 for success, clap's usage
exit status 2, `ExitCode::FAILURE` = 1, and the Rust panic status 101. -/
def Outcome.exitCode : Outcome → Nat
  | .ok _ => 0
  | .cliError _ => 2
  | .reportedError _ _ => 1
  | .panicked _ => 101

/-- The mipmap-validation condition of `src/main.rs` lines 91-96:
`*mipmaps && matches!(..).not()`. -/
def validationFails (a : EncodeArgs) : Bool :=
  a.mipmaps && !a.data_format.mipmapCompatible

/-- The diagnostic built at `src/main.rs` line 103 (the `{name}` there is
the clap value name of the data format). -/
def mipmapErrorMsg (df : DataFormat) : String :=
  "Can\x27t use mipmaps on the `" ++ df.cliName ++ "` data format."

/-- The message a Rust `Result::unwrap()` panic carries for `Err(e)`. -/
def unwrapErrMsg (e : String) : String :=
  "called Result::unwrap() on an Err value: " ++ e

/-- The four-way constructor selection of `src/main.rs` lines 110-132. -/
def constructorFor (df : DataFormat) (pf : PixelFormat) (h : HeaderId) :
    ConstructorCall :=
  match df with
  | .Index4 | .Index8 =>
    match h with
    | .Gcix => .gcixPalettized (pixelFormatToGvr pf) (dataFormatToGvr df)
    | .Gbix => .gbixPalettized (pixelFormatToGvr pf) (dataFormatToGvr df)
  | _ =>
    match h with
    | .Gcix => .gcix (dataFormatToGvr df)
    | .Gbix => .gbix (dataFormatToGvr df)

/-- Modelled from the spec: the four-row selection table of section 4.3,
keyed on the pair (`is_palettized`, header id) only. -/
def specPathSelect (pal : Bool) (h : HeaderId) (pf : PixelFormat)
    (df : DataFormat) : ConstructorCall :=
  match pal, h with
  | true, .Gcix => .gcixPalettized (pixelFormatToGvr pf) (dataFormatToGvr df)
  | true, .Gbix => .gbixPalettized (pixelFormatToGvr pf) (dataFormatToGvr df)
  | false, .Gcix => .gcix (dataFormatToGvr df)
  | false, .Gbix => .gbix (dataFormatToGvr df)

/-- Result of the configuration phase of the encode pipeline: either an
early termination, or a configured encoder plus the calls made so far. -/
inductive BuildResult
  | failed (o : Outcome) (events : List Event)
  | built (enc : TextureEncoder) (events : List Event)
deriving DecidableEq, Repr

/-- The `if *global_index > 0` modifier application of `src/main.rs`
lines 145-147. -/
def applyGlobalIndex (a : EncodeArgs) (enc : TextureEncoder)
    (evs : List Event) : BuildResult :=
  if a.global_index > 0 then
    .built { enc with globalIndex := a.global_index }
      (evs ++ [.withGlobalIndex a.global_index])
  else
    .built enc evs

/-- The encode pipeline of `src/main.rs` up to (and including) the
global-index modifier: mipmap validation, constructor selection,
construction, and both optional modifiers, in source order. -/
def buildEncoder (a : EncodeArgs) (w : EncodeWorld) : BuildResult :=
  if validationFails a then
    .failed (.cliError (mipmapErrorMsg a.data_format)) []
  else
    let c := constructorFor a.data_format a.pixel_format a.header
    match w.ctorFails with
    | some e => .failed (.reportedError "while initializing:" e) [.construct c]
    | none =>
      let enc0 : TextureEncoder :=
        ⟨c, false, TextureEncoder.defaultGlobalIndex⟩
      if a.mipmaps then
        match w.mipmapModifierFails with
        | some e =>
          .failed (.panicked (unwrapErrMsg e)) [.construct c, .withMipmaps]
        | none =>
          applyGlobalIndex a { enc0 with mipmapsApplied := true }
            [.construct c, .withMipmaps]
      else
        applyGlobalIndex a enc0 [.construct c]

/-- The success report printed at `src/main.rs` lines 168-180 (color
markup stripped; each printed line is one list element). -/
def successReport (a : EncodeArgs) : List String :=
  ["success: saved encoded texture to:",
   "  " ++ a.output.displayStr,
   "",
   "info:",
   "  Header: " ++ a.header.display,
   "  Data format: " ++ a.data_format.display]
  ++ (match a.data_format with
      | .Index4 | .Index8 => ["  Pixel format: " ++ a.pixel_format.display]
      | _ => [])
  ++ ["  Mipmaps: " ++ (if a.mipmaps then "true" else "false"),
      "  Global index: " ++ toString a.global_index]

/-- The whole `Commands::Encode` arm of `main` in `src/main.rs`:
configuration, `encoder.encode(input.to_str().expect(..))`,
`std::fs::write(output.to_str().expect(..), ..)`, then the report.
Returns the outcome and the trace of external calls. -/
def encodeMain (a : EncodeArgs) (w : EncodeWorld) : Outcome × List Event :=
  match buildEncoder a w with
  | .failed o evs => (o, evs)
  | .built enc evs =>
    match a.input.toStr with
    | none => (.panicked "Couldn\x27t parse input path.", evs)
    | some ip =>
      let evs := evs ++ [.encodeCall enc ip]
      match w.encodeFails with
      | some e => (.reportedError "while encoding texture:" e, evs)
      | none =>
        match a.output.toStr with
        | none => (.panicked "Couldn\x27t parse output path.", evs)
        | some op =>
          let evs := evs ++ [.writeFile op]
          match w.writeFails with
          | some e => (.reportedError "while writing output file:" e, evs)
          | none => (.ok (successReport a), evs)

/-- Results of the external calls during one decode run. -/
structure DecodeWorld where
  openFails : Option String
  decodeFails : Option String
  saveFails : Option String
deriving DecidableEq, Repr

/-- The `Commands::Decode` arm of `main` in `src/main.rs`:
`TextureDecoder::new(input.to_str().expect(..))`, `decode()`, then
`save(output.to_str().expect(..))` and the success report. -/
def decodeMain (input output : PathArg) (w : DecodeWorld) : Outcome :=
  match input.toStr with
  | none => .panicked "Couldn\x27t parse input path."
  | some _ =>
    match w.openFails with
    | some e => .reportedError "while opening input file:" e
    | none =>
      match w.decodeFails with
      | some e => .reportedError "while decoding input file:" e
      | none =>
        match output.toStr with
        | none => .panicked "Couldn\x27t parse the output path."
        | some _ =>
          match w.saveFails with
          | some e => .reportedError "while saving output image:" e
          | none =>
            .ok ["success: saved decoded image to:",
                 "  " ++ output.displayStr]

/-- Whether an event is one of the four encoder-constructor calls. -/
def Event.isConstruct : Event → Bool
  | .construct _ => true
  | _ => false

/-- The constructor calls occurring in a trace. -/
def constructEvents (l : List Event) : List Event :=
  l.filter Event.isConstruct

/-- Whether an outcome is the clap usage-error exit. -/
def Outcome.isCliError : Outcome → Bool
  | .cliError _ => true
  | _ => false

lemma encodeMain_of_validationFails (a : EncodeArgs) (w : EncodeWorld)
    (h : validationFails a = true) :
    encodeMain a w = (.cliError (mipmapErrorMsg a.data_format), []) := by
  simp [encodeMain, buildEncoder, h]

lemma encodeMain_pass_not_cliError (a : EncodeArgs) (w : EncodeWorld)
    (h : validationFails a = false) :
    (encodeMain a w).fst.isCliError = false := by
  cases hc : w.ctorFails <;>
    cases hm : a.mipmaps <;>
    cases hmf : w.mipmapModifierFails <;>
    by_cases hg : a.global_index > 0 <;>
    cases hi : a.input.toStr <;>
    cases he : w.encodeFails <;>
    cases ho : a.output.toStr <;>
    cases hw : w.writeFails <;>
    simp [encodeMain, buildEncoder, applyGlobalIndex, h, hc, hm, hmf, hg,
      hi, he, ho, hw, Outcome.isCliError]

lemma validationFails_iff (a : EncodeArgs) :
    validationFails a = true ↔
      (a.mipmaps = true ∧
        a.data_format ≠ DataFormat.Dxt1 ∧ a.data_format ≠ DataFormat.Rgb565 ∧
        a.data_format ≠ DataFormat.Rgb5a3) := by
  have hc : ∀ df : DataFormat,
      DataFormat.mipmapCompatible df = false ↔
        (df ≠ DataFormat.Dxt1 ∧ df ≠ DataFormat.Rgb565 ∧
          df ≠ DataFormat.Rgb5a3) := by decide
  simp only [validationFails, Bool.and_eq_true, Bool.not_eq_true']
  exact and_congr Iff.rfl (hc a.data_format)

/-- C1: the encode pipeline exits with the clap usage error exactly when
mipmaps are requested on a data format outside {Dxt1, Rgb565, Rgb5a3};
in that case no encoder constructor is ever invoked, and in every other
case validation passes (no usage error is raised). -/
theorem mipmap_validation_iff (a : EncodeArgs) (w : EncodeWorld) :
    ((encodeMain a w).fst.isCliError = true ↔
      (a.mipmaps = true ∧
        a.data_format ≠ DataFormat.Dxt1 ∧ a.data_format ≠ DataFormat.Rgb565 ∧
        a.data_format ≠ DataFormat.Rgb5a3))
    ∧ ((encodeMain a w).fst.isCliError = true →
        constructEvents (encodeMain a w).snd = []) := by
  rcases hv : validationFails a with _ | _
  · have h1 := encodeMain_pass_not_cliError a w hv
    constructor
    · rw [h1]
      simp only [Bool.false_eq_true, false_iff]
      rw [← validationFails_iff, hv]
      simp
    · intro hcontra
      rw [h1] at hcontra
      exact absurd hcontra (by simp)
  · have h1 := encodeMain_of_validationFails a w hv
    constructor
    · rw [h1]
      simpa [Outcome.isCliError] using (validationFails_iff a).mp hv
    · intro _
      rw [h1]
      rfl

/-- A concrete request: `encode in.png out.gvr -d index8 -m`. -/
def argsIndex8Mip : EncodeArgs :=
  ⟨.utf8 "in.png", .utf8 "out.gvr", .Index8, .Rgb5a3, true, .Gcix, 0⟩

/-- A concrete request: `encode in.png out.gvr -d index4 -p rgb565 -i gbix`. -/
def argsIndex4Gbix : EncodeArgs :=
  ⟨.utf8 "in.png", .utf8 "out.gvr", .Index4, .Rgb565, false, .Gbix, 0⟩

/-- A world in which every external call succeeds. -/
def okWorld : EncodeWorld := ⟨none, none, none, none⟩

/-- A world for decode runs in which every external call succeeds. -/
def okDecodeWorld : DecodeWorld := ⟨none, none, none⟩

/-- C1 witness: on `index8` with mipmaps requested the usage error is
raised and no constructor runs. -/
theorem mipmap_validation_iff_witness :
    ((encodeMain argsIndex8Mip okWorld).fst.isCliError = true ↔
      (argsIndex8Mip.mipmaps = true ∧
        argsIndex8Mip.data_format ≠ DataFormat.Dxt1 ∧
        argsIndex8Mip.data_format ≠ DataFormat.Rgb565 ∧
        argsIndex8Mip.data_format ≠ DataFormat.Rgb5a3))
    ∧ ((encodeMain argsIndex8Mip okWorld).fst.isCliError = true →
        constructEvents (encodeMain argsIndex8Mip okWorld).snd = []) :=
  mipmap_validation_iff argsIndex8Mip okWorld

/-- C2 counterexample: for `Index8` with mipmaps requested, the surfaced
diagnostic is built from the clap value name `index8`; it does not
contain the Display label "8-bit Indexed", and it differs from the
message the claim predicts from the display label. -/
theorem mipmap_message_display_label_counterexample :
    (encodeMain argsIndex8Mip okWorld).fst
      = Outcome.cliError "Can\x27t use mipmaps on the `index8` data format."
    ∧ ¬ ("8-bit Indexed".data <:+: (mipmapErrorMsg DataFormat.Index8).data)
    ∧ mipmapErrorMsg DataFormat.Index8
        ≠ "Can\x27t use mipmaps on the `" ++ DataFormat.display DataFormat.Index8
          ++ "` data format." :=
  ⟨rfl, by decide, by decide⟩

/-- C2 (amended): when mipmap validation fails, the surfaced message is
"Can't use mipmaps on the `NAME` data format." where NAME is the
offending format's clap value name (its kebab-case CLI spelling, e.g.
`index8`), not its human-readable Display label. -/
theorem mipmap_message_names_cli_value (a : EncodeArgs) (w : EncodeWorld)
    (h1 : a.mipmaps = true) (h2 : a.data_format.mipmapCompatible = false) :
    (encodeMain a w).fst
      = Outcome.cliError ("Can\x27t use mipmaps on the `"
          ++ a.data_format.cliName ++ "` data format.") := by
  have hv : validationFails a = true := by
    simp [validationFails, h1, h2]
  rw [encodeMain_of_validationFails a w hv]
  rfl

/-- C2 witness: the amended message law evaluated on the `index8` request. -/
theorem mipmap_message_names_cli_value_witness :
    (encodeMain argsIndex8Mip okWorld).fst
      = Outcome.cliError "Can\x27t use mipmaps on the `index8` data format." := by
  have h := mipmap_message_names_cli_value argsIndex8Mip okWorld rfl rfl
  simpa [argsIndex8Mip, DataFormat.cliName] using h

/-- C3: on every validated request the trace contains exactly one
constructor call, and the constructor chosen by the code coincides with
the spec's four-row table keyed on (is-palettized, header id). -/
theorem constructor_path_selection (a : EncodeArgs) (w : EncodeWorld)
    (h : validationFails a = false) :
    constructorFor a.data_format a.pixel_format a.header
        = specPathSelect a.data_format.isPalettized a.header
            a.pixel_format a.data_format
    ∧ constructEvents (encodeMain a w).snd
        = [Event.construct
            (constructorFor a.data_format a.pixel_format a.header)] := by
  constructor
  · cases a.data_format <;> cases a.header <;> rfl
  · cases hc : w.ctorFails <;>
      cases hm : a.mipmaps <;>
      cases hmf : w.mipmapModifierFails <;>
      by_cases hg : a.global_index > 0 <;>
      cases hi : a.input.toStr <;>
      cases he : w.encodeFails <;>
      cases ho : a.output.toStr <;>
      cases hw : w.writeFails <;>
      simp [encodeMain, buildEncoder, applyGlobalIndex, h, hc, hm, hmf, hg,
        hi, he, ho, hw, constructEvents, Event.isConstruct]

/-- C3 witness: the `index4` + GBIX request takes exactly the
palettized-GBIX path. -/
theorem constructor_path_selection_witness :
    constructorFor DataFormat.Index4 PixelFormat.Rgb565 HeaderId.Gbix
        = specPathSelect true HeaderId.Gbix PixelFormat.Rgb565 DataFormat.Index4
    ∧ constructEvents (encodeMain argsIndex4Gbix okWorld).snd
        = [Event.construct
            (constructorFor DataFormat.Index4 PixelFormat.Rgb565 HeaderId.Gbix)] :=
  constructor_path_selection argsIndex4Gbix okWorld rfl

/-- C4: on a request whose mipmap/data-format combination is invalid the
pipeline stops at validation: the outcome is the usage error and the
trace holds no constructor call at all. -/
theorem validation_precedes_construction (a : EncodeArgs) (w : EncodeWorld)
    (h1 : a.mipmaps = true) (h2 : a.data_format.mipmapCompatible = false) :
    (encodeMain a w).fst = Outcome.cliError (mipmapErrorMsg a.data_format)
    ∧ constructEvents (encodeMain a w).snd = [] := by
  have hv : validationFails a = true := by
    simp [validationFails, h1, h2]
  rw [encodeMain_of_validationFails a w hv]
  exact ⟨rfl, rfl⟩

/-- C4 witness: the invalid `index8` + mipmaps request constructs nothing. -/
theorem validation_precedes_construction_witness :
    (encodeMain argsIndex8Mip okWorld).fst
      = Outcome.cliError (mipmapErrorMsg DataFormat.Index8)
    ∧ constructEvents (encodeMain argsIndex8Mip okWorld).snd = [] :=
  validation_precedes_construction argsIndex8Mip okWorld rfl rfl

/-- A concrete request: `encode in.png out.gvr -g 5` (defaults elsewhere). -/
def argsGi5 : EncodeArgs :=
  ⟨.utf8 "in.png", .utf8 "out.gvr", .Dxt1, .Rgb5a3, false, .Gcix, 5⟩

/-- C5: whenever configuration completes, the global-index modifier was
called exactly when `global_index > 0`; the encoder's header index field
ends up holding the literal requested value, which for a request of 0 is
the format-implicit default. -/
theorem global_index_modifier_iff (a : EncodeArgs) (w : EncodeWorld)
    (enc : TextureEncoder) (evs : List Event)
    (h : buildEncoder a w = BuildResult.built enc evs) :
    ((Event.withGlobalIndex a.global_index ∈ evs) ↔ a.global_index > 0)
    ∧ enc.globalIndex = a.global_index
    ∧ (a.global_index = 0 →
        enc.globalIndex = TextureEncoder.defaultGlobalIndex) := by
  cases hv : validationFails a <;>
    cases hc : w.ctorFails <;>
    cases hm : a.mipmaps <;>
    cases hmf : w.mipmapModifierFails <;>
    by_cases hg : a.global_index > 0 <;>
    simp [buildEncoder, applyGlobalIndex, hv, hc, hm, hmf, hg] at h <;>
    obtain ⟨he, hev⟩ := h <;>
    subst he <;> subst hev <;>
    simp [TextureEncoder.defaultGlobalIndex, hg] <;>
    omega

/-- C5 witness: a request with `global_index = 5` applies the modifier
and stores 5 in the header field. -/
theorem global_index_modifier_iff_witness :
    ((Event.withGlobalIndex 5
        ∈ [Event.construct (ConstructorCall.gcix GvrDataFormat.Dxt1),
           Event.withGlobalIndex 5]) ↔ (5 : Nat) > 0)
    ∧ (TextureEncoder.mk (ConstructorCall.gcix GvrDataFormat.Dxt1) false 5).globalIndex
        = 5
    ∧ ((5 : Nat) = 0 →
        (TextureEncoder.mk (ConstructorCall.gcix GvrDataFormat.Dxt1) false 5).globalIndex
          = TextureEncoder.defaultGlobalIndex) :=
  global_index_modifier_iff argsGi5 okWorld
    (TextureEncoder.mk (ConstructorCall.gcix GvrDataFormat.Dxt1) false 5)
    [Event.construct (ConstructorCall.gcix GvrDataFormat.Dxt1),
     Event.withGlobalIndex 5] rfl

/-- C6: every success report consists of the destination path, the header
label, the data-format label, the mipmap boolean and the literal global
index (also when it is zero), with the pixel-format label present
exactly when the data format is palettized. -/
theorem success_report_contents (a : EncodeArgs) (w : EncodeWorld)
    (r : List String) (h : (encodeMain a w).fst = Outcome.ok r) :
    r = ["success: saved encoded texture to:",
         "  " ++ a.output.displayStr,
         "",
         "info:",
         "  Header: " ++ a.header.display,
         "  Data format: " ++ a.data_format.display]
        ++ (if a.data_format.isPalettized then
              ["  Pixel format: " ++ a.pixel_format.display]
            else [])
        ++ ["  Mipmaps: " ++ (if a.mipmaps then "true" else "false"),
            "  Global index: " ++ toString a.global_index] := by
  have hr : r = successReport a := by
    cases hv : validationFails a <;>
      cases hc : w.ctorFails <;>
      cases hm : a.mipmaps <;>
      cases hmf : w.mipmapModifierFails <;>
      by_cases hg : a.global_index > 0 <;>
      cases hi : a.input.toStr <;>
      cases he : w.encodeFails <;>
      cases ho : a.output.toStr <;>
      cases hw : w.writeFails <;>
      simp [encodeMain, buildEncoder, applyGlobalIndex, hv, hc, hm, hmf, hg,
        hi, he, ho, hw] at h <;>
      exact h.symm
  subst hr
  cases hdf : a.data_format <;>
    simp [successReport, DataFormat.isPalettized, hdf]

/-- C6 witness: the report of the successful `index4` + GBIX run. -/
theorem success_report_contents_witness :
    (["success: saved encoded texture to:", "  out.gvr", "", "info:",
      "  Header: GBIX", "  Data format: 4-bit Indexed",
      "  Pixel format: RGB565", "  Mipmaps: false",
      "  Global index: 0"] : List String)
      = ["success: saved encoded texture to:",
         "  " ++ argsIndex4Gbix.output.displayStr,
         "",
         "info:",
         "  Header: " ++ argsIndex4Gbix.header.display,
         "  Data format: " ++ argsIndex4Gbix.data_format.display]
        ++ (if argsIndex4Gbix.data_format.isPalettized then
              ["  Pixel format: " ++ argsIndex4Gbix.pixel_format.display]
            else [])
        ++ ["  Mipmaps: " ++ (if argsIndex4Gbix.mipmaps then "true" else "false"),
            "  Global index: " ++ toString argsIndex4Gbix.global_index] :=
  success_report_contents argsIndex4Gbix okWorld _ rfl

/-- C7: for both subcommands the exit status is zero exactly when every
stage of the operation succeeds — validation, construction, the mipmap
modifier when requested, both path conversions, encoding/decoding and
the final file write/save. -/
theorem exit_zero_iff_success (a : EncodeArgs) (w : EncodeWorld)
    (i o : PathArg) (dw : DecodeWorld) :
    ((encodeMain a w).fst.exitCode = 0 ↔
      (validationFails a = false ∧ w.ctorFails = none
        ∧ (a.mipmaps = true → w.mipmapModifierFails = none)
        ∧ a.input.toStr ≠ none ∧ w.encodeFails = none
        ∧ a.output.toStr ≠ none ∧ w.writeFails = none))
    ∧ ((decodeMain i o dw).exitCode = 0 ↔
      (i.toStr ≠ none ∧ dw.openFails = none ∧ dw.decodeFails = none
        ∧ o.toStr ≠ none ∧ dw.saveFails = none)) := by
  constructor
  · cases hv : validationFails a <;>
      cases hc : w.ctorFails <;>
      cases hm : a.mipmaps <;>
      cases hmf : w.mipmapModifierFails <;>
      by_cases hg : a.global_index > 0 <;>
      cases hi : a.input.toStr <;>
      cases he : w.encodeFails <;>
      cases ho : a.output.toStr <;>
      cases hw : w.writeFails <;>
      simp [encodeMain, buildEncoder, applyGlobalIndex, Outcome.exitCode,
        hv, hc, hm, hmf, hg, hi, he, ho, hw]
  · cases hi : i.toStr <;>
      cases hop : dw.openFails <;>
      cases hd : dw.decodeFails <;>
      cases ho : o.toStr <;>
      cases hs : dw.saveFails <;>
      simp [decodeMain, Outcome.exitCode, hi, hop, hd, ho, hs]

/-- C7 witness: the fully successful encode run and decode run both exit
with status zero under the stated stage conditions. -/
theorem exit_zero_iff_success_witness :
    ((encodeMain argsIndex4Gbix okWorld).fst.exitCode = 0 ↔
      (validationFails argsIndex4Gbix = false ∧ okWorld.ctorFails = none
        ∧ (argsIndex4Gbix.mipmaps = true → okWorld.mipmapModifierFails = none)
        ∧ argsIndex4Gbix.input.toStr ≠ none ∧ okWorld.encodeFails = none
        ∧ argsIndex4Gbix.output.toStr ≠ none ∧ okWorld.writeFails = none))
    ∧ ((decodeMain (PathArg.utf8 "in.gvr") (PathArg.utf8 "out.png")
          okDecodeWorld).exitCode = 0 ↔
      ((PathArg.utf8 "in.gvr").toStr ≠ none ∧ okDecodeWorld.openFails = none
        ∧ okDecodeWorld.decodeFails = none
        ∧ (PathArg.utf8 "out.png").toStr ≠ none
        ∧ okDecodeWorld.saveFails = none)) :=
  exit_zero_iff_success argsIndex4Gbix okWorld
    (PathArg.utf8 "in.gvr") (PathArg.utf8 "out.png") okDecodeWorld

/-- C8: the format catalog is a total, pure lookup: the maps into the
external codec's vocabulary are total functions and in fact bijections
(every variant is mapped, no two variants collide), and every variant
carries a fixed, non-empty, distinct human-readable label. -/
theorem format_catalog_total :
    Function.Bijective dataFormatToGvr
    ∧ Function.Bijective pixelFormatToGvr
    ∧ Function.Injective DataFormat.display
    ∧ Function.Injective PixelFormat.display
    ∧ (∀ d : DataFormat, d.display ≠ "")
    ∧ (∀ p : PixelFormat, p.display ≠ "") := by
  refine ⟨?_, ?_, ?_, ?_, ?_, ?_⟩ <;> decide

/-- C9: on a validated mipmap request (validation restricts the format to
a mipmap-compatible one) whose construction succeeded, a failure of the
`with_mipmaps` modifier surfaces as an `unwrap` panic, never as one of
the reported user-facing errors. -/
theorem mipmap_modifier_failure_panics (a : EncodeArgs) (w : EncodeWorld)
    (e : String) (h1 : a.mipmaps = true)
    (h2 : a.data_format.mipmapCompatible = true)
    (h3 : w.ctorFails = none) (h4 : w.mipmapModifierFails = some e) :
    (encodeMain a w).fst = Outcome.panicked (unwrapErrMsg e) := by
  have hv : validationFails a = false := by
    simp [validationFails, h1, h2]
  simp [encodeMain, buildEncoder, hv, h1, h3, h4]

/-- A concrete request: `encode in.png out.gvr -m` (DXT1 default). -/
def argsDxt1Mip : EncodeArgs :=
  ⟨.utf8 "in.png", .utf8 "out.gvr", .Dxt1, .Rgb5a3, true, .Gcix, 0⟩

/-- A world in which only the `with_mipmaps` modifier fails. -/
def mipFailWorld : EncodeWorld := ⟨none, some "mip fail", none, none⟩

/-- C9 witness: the DXT1 + mipmaps request panics when the modifier
fails. -/
theorem mipmap_modifier_failure_panics_witness :
    (encodeMain argsDxt1Mip mipFailWorld).fst
      = Outcome.panicked
          "called Result::unwrap() on an Err value: mip fail" :=
  mipmap_modifier_failure_panics argsDxt1Mip mipFailWorld "mip fail"
    rfl rfl rfl rfl

/-- C10: a non-UTF-8 input path makes both subcommands panic through
`expect` instead of producing a reported error: the encode pipeline (once
configuration is past) and the decode pipeline (immediately). -/
theorem non_utf8_path_panics (a : EncodeArgs) (w : EncodeWorld)
    (i o : PathArg) (dw : DecodeWorld)
    (hv : validationFails a = false) (hc : w.ctorFails = none)
    (hm : a.mipmaps = true → w.mipmapModifierFails = none)
    (hi : a.input.toStr = none) (hi2 : i.toStr = none) :
    (encodeMain a w).fst = Outcome.panicked "Couldn\x27t parse input path."
    ∧ decodeMain i o dw = Outcome.panicked "Couldn\x27t parse input path." := by
  constructor
  · cases hmm : a.mipmaps with
    | false =>
      by_cases hg : a.global_index > 0 <;>
        simp [encodeMain, buildEncoder, applyGlobalIndex, hv, hc, hmm, hg, hi]
    | true =>
      have hmf := hm hmm
      by_cases hg : a.global_index > 0 <;>
        simp [encodeMain, buildEncoder, applyGlobalIndex, hv, hc, hmm, hmf,
          hg, hi]
  · simp [decodeMain, hi2]

/-- A concrete request whose input path is not valid UTF-8. -/
def argsBadInput : EncodeArgs :=
  ⟨.nonUtf8 "bad", .utf8 "out.gvr", .Dxt1, .Rgb5a3, false, .Gcix, 0⟩

/-- C10 witness: concrete non-UTF-8 input paths panic in both pipelines. -/
theorem non_utf8_path_panics_witness :
    (encodeMain argsBadInput okWorld).fst
      = Outcome.panicked "Couldn\x27t parse input path."
    ∧ decodeMain (PathArg.nonUtf8 "bad") (PathArg.utf8 "out.png") okDecodeWorld
      = Outcome.panicked "Couldn\x27t parse input path." :=
  non_utf8_path_panics argsBadInput okWorld
    (PathArg.nonUtf8 "bad") (PathArg.utf8 "out.png") okDecodeWorld
    rfl rfl (fun _ => rfl) rfl rfl
